import Mathlib

/-!
Shallow embedding of the energomonitor-js client library
(src/Energomonitor.js and src/utils.js) and verification of its
specification.

Modelling conventions:
* JavaScript values that matter to the library (undefined, null, strings,
  numbers, arrays, objects) are modelled by the inductive type JSVal.
* A JS Date is modelled by its milliseconds-since-epoch value (an Int),
  which is what the library reads from it (date.getTime(), toISOString()).
* A promise returned by a session method is modelled by
  Except String Request: Except.error is a rejected promise carrying the
  rejection value, Except.ok is the request descriptor handed to the
  transport (axios).  An Except.ok result is exactly "a transport call is
  issued"; Except.error means no transport call happened.
* The axios transport is an external collaborator: we model the part of
  its contract the library uses (a mutable defaults.baseURL, and
  get/post/patch turning (url, config) into a request).  The query
  serializers (axios default bracket style, and qs.stringify with
  indices: false used by getStreams) are modelled on the scalar/array
  values the library passes; percent-encoding is the identity on every
  character the library produces in those positions and is not modelled.
-/

/-- A JavaScript value, restricted to the shapes the library manipulates. -/
inductive JSVal where
  | undef : JSVal
  | null : JSVal
  | str : String → JSVal
  | num : Int → JSVal
  | arr : List JSVal → JSVal
  | obj : List (String × JSVal) → JSVal
deriving Repr

-- JavaScript ToString: Array.prototype.toString is join with a comma,
-- stringifying each element recursively; objects print "[object Object]".
mutual

def jsToString : JSVal → String
  | JSVal.undef => "undefined"
  | JSVal.null => "null"
  | JSVal.str s => s
  | JSVal.num n => toString n
  | JSVal.arr vs => jsToStringList vs
  | JSVal.obj _ => "[object Object]"

def jsToStringList : List JSVal → String
  | [] => ""
  | [v] => jsToString v
  | v :: rest => jsToString v ++ "," ++ jsToStringList rest

end

/-- JavaScript property access v[k].  Returns none when the access throws
(property access on undefined or null raises a TypeError), some w when it
yields the value w (which is JSVal.undef when the key is missing). -/
def jsGetProp (v : JSVal) (k : String) : Option JSVal :=
  match v with
  | JSVal.undef => none
  | JSVal.null => none
  | JSVal.obj fields =>
      match fields.lookup k with
      | some w => some w
      | none => some JSVal.undef
  | _ => some JSVal.undef

/-- Embedding of buildAuthorizedRequestHeaders (src/utils.js): headers for
authorized requests.  The template literal stringifies the token. -/
def buildAuthorizedRequestHeaders (token : JSVal) : List (String × String) :=
  [("Content-Type", "application/json"),
   ("Authorization", "Bearer " ++ jsToString token)]

/-- JavaScript Math.round: round half toward positive infinity.  Exact on
the rational arguments the library produces (for dates with
magnitude below 2^52 ms the double division by 1000 is exact at every
half-integer boundary, so the float behaviour coincides with the rational
one). -/
def jsMathRound (q : Rat) : Int :=
  Int.floor (q + 1 / 2)

/-- Embedding of dateToTimestamp (src/utils.js): Math.round of
milliseconds-since-epoch divided by 1000. -/
def dateToTimestamp (ms : Int) : Int :=
  jsMathRound ((ms : Rat) / 1000)

/-- Modelled from the spec: dateToUnixSeconds as §4.3 words it,
"floor-rounds milliseconds-since-epoch / 1000" — the exact-truncation
conversion the claims compare the code against. -/
def dateToUnixSecondsSpec (ms : Int) : Int :=
  Int.fdiv ms 1000

/-- The fixed rejection message of the authorization gate (src/utils.js). -/
def missingTokenMessage : String :=
  "Cannot call this method without setting the authorization token " ++
    "(in the constructor or using the authorize method)."

/-- Embedding of authorizedApiRequest (src/utils.js): reject when the token
is undefined, otherwise run the thunk and return its result. -/
def authorizedApiRequest {α : Type} (token : JSVal) (f : Unit → Except String α) :
    Except String α :=
  match token with
  | JSVal.undef => Except.error missingTokenMessage
  | _ => f ()

/-- Left-pad the decimal digits of n with zeros to width w. -/
def padNat (w : Nat) (n : Nat) : String :=
  let s := toString n
  if s.length < w then String.mk (List.replicate (w - s.length) '0') ++ s else s

/-- Proleptic-Gregorian civil date (year, month, day) of a day count
relative to 1970-01-01 (Howard Hinnant's civil_from_days algorithm, which
is what ECMAScript date decomposition computes). -/
def civilFromDays (z0 : Int) : Int × Nat × Nat :=
  let z : Int := z0 + 719468
  let era : Int := Int.fdiv z 146097
  let doe : Nat := (z - era * 146097).toNat
  let yoe : Nat := (doe - doe / 1460 + doe / 36524 - doe / 146096) / 365
  let y : Int := era * 400 + yoe
  let doy : Nat := doe - (365 * yoe + yoe / 4 - yoe / 100)
  let mp : Nat := (5 * doy + 2) / 153
  let d : Nat := doy - (153 * mp + 2) / 5 + 1
  let m : Nat := if mp < 10 then mp + 3 else mp - 9
  (if m ≤ 2 then y + 1 else y, m, d)

/-- ECMAScript year formatting in Date.prototype.toISOString: four digits
for 0..9999, otherwise an expanded, signed six-digit year. -/
def isoYearString (y : Int) : String :=
  if 0 ≤ y ∧ y ≤ 9999 then padNat 4 y.toNat
  else if 9999 < y then "+" ++ padNat 6 y.toNat
  else "-" ++ padNat 6 (-y).toNat

/-- Embedding of Date.prototype.toISOString on a date holding ms
milliseconds since the epoch: full ISO-8601, millisecond precision,
Z suffix. -/
def jsDateToISOString (ms : Int) : String :=
  let day : Int := Int.fdiv ms 86400000
  let msod : Nat := (ms - day * 86400000).toNat
  let ymd := civilFromDays day
  let hh : Nat := msod / 3600000
  let mi : Nat := msod % 3600000 / 60000
  let ss : Nat := msod % 60000 / 1000
  let mss : Nat := msod % 1000
  isoYearString ymd.1 ++ "-" ++ padNat 2 ymd.2.1 ++ "-" ++ padNat 2 ymd.2.2 ++
    "T" ++ padNat 2 hh ++ ":" ++ padNat 2 mi ++ ":" ++ padNat 2 ss ++
    "." ++ padNat 3 mss ++ "Z"

/-- HTTP request method. -/
inductive HttpMethod where
  | GET : HttpMethod
  | POST : HttpMethod
  | PATCH : HttpMethod
deriving Repr, DecidableEq

/-- Which query serializer a request carries: the axios default, or the
override installed by getStreams, qs.stringify with indices set to
false. -/
inductive QuerySerializer where
  | axiosDefault : QuerySerializer
  | qsNoIndices : QuerySerializer
deriving Repr, DecidableEq

/-- Collect the key=value fragments a serializer produces for a params
object (helper shared by both serializers). -/
def collectFragments (f : String × JSVal → List String) :
    List (String × JSVal) → List String
  | [] => []
  | kv :: rest => f kv ++ collectFragments f rest

/-- Model of qs.stringify(params, indices false), the serializer installed
by getStreams: an array value produces the key repeated once per element;
undefined values are skipped; null serializes as the bare key. -/
def qsStringifyNoIndices (params : List (String × JSVal)) : String :=
  String.intercalate "&" (collectFragments
    (fun kv =>
      match kv.2 with
      | JSVal.arr vs => vs.map (fun v => kv.1 ++ "=" ++ jsToString v)
      | JSVal.undef => []
      | JSVal.null => [kv.1 ++ "="]
      | v => [kv.1 ++ "=" ++ jsToString v])
    params)

/-- Model of the axios default params serializer: an array value produces
bracketed keys, one per element; undefined and null values are skipped. -/
def axiosDefaultStringify (params : List (String × JSVal)) : String :=
  String.intercalate "&" (collectFragments
    (fun kv =>
      match kv.2 with
      | JSVal.arr vs => vs.map (fun v => kv.1 ++ "[]=" ++ jsToString v)
      | JSVal.undef => []
      | JSVal.null => []
      | v => [kv.1 ++ "=" ++ jsToString v])
    params)

/-- The query string a request's serializer produces from its params. -/
def serializeParams : QuerySerializer → List (String × JSVal) → String
  | QuerySerializer.axiosDefault, params => axiosDefaultStringify params
  | QuerySerializer.qsNoIndices, params => qsStringifyNoIndices params

/-- The request descriptor handed to the transport: everything the library
puts into an axios get/post/patch call. -/
structure Request where
  method : HttpMethod
  baseURL : JSVal
  url : String
  headers : List (String × String)
  params : List (String × JSVal)
  serializer : QuerySerializer
  data : Option JSVal
  auth : Option (String × String)
deriving Repr

/-- The slice of an axios instance the library touches: its mutable
defaults, of which only baseURL is ever read or written. -/
structure AxiosInstance where
  baseURL : JSVal
deriving Repr

/-- Model of axios.create(): a fresh instance whose baseURL default is not
yet set. -/
def AxiosInstance.create : AxiosInstance :=
  { baseURL := JSVal.undef }

/-- Endpoint URL builders (the ENDPOINT_URLS table of Energomonitor.js). -/
def ENDPOINT_URLS.auth : String := "/authorizations"

def ENDPOINT_URLS.user (userId : String) : String :=
  "/users/" ++ userId

def ENDPOINT_URLS.feeds (userId : String) : String :=
  "/users/" ++ userId ++ "/feeds"

def ENDPOINT_URLS.feed (feedId : String) : String :=
  "/feeds/" ++ feedId

def ENDPOINT_URLS.streams (feedId : String) : String :=
  "/feeds/" ++ feedId ++ "/streams"

def ENDPOINT_URLS.stream (feedId streamId : String) : String :=
  "/feeds/" ++ feedId ++ "/streams/" ++ streamId

def ENDPOINT_URLS.streamData (feedId streamId : String) : String :=
  "/feeds/" ++ feedId ++ "/streams/" ++ streamId ++ "/data"

def ENDPOINT_URLS.relatedStreams (feedId : String) : String :=
  "/feeds/" ++ feedId ++ "/related_streams"

def ENDPOINT_URLS.notifications (userId : String) : String :=
  "/users/" ++ userId ++ "/notifications"

def ENDPOINT_URLS.notification (userId notificationId : String) : String :=
  "/users/" ++ userId ++ "/notifications/" ++ notificationId

def ENDPOINT_URLS.notificationCount (userId : String) : String :=
  "/users/" ++ userId ++ "/notification_count"

/-- The session object: the fields of class Energomonitor.  The underscore
prefixes of the JS fields are dropped. -/
structure Energomonitor where
  token : JSVal
  authorizedRequestHeaders : List (String × String)
  ax : AxiosInstance
deriving Repr

/-- The default Energomonitor API URL (default of the apiURL constructor
parameter). -/
def defaultApiURL : String := "https://api.energomonitor.com/v1"

/-- Embedding of the Energomonitor constructor.  An omitted token is
JSVal.undef; an omitted axiosInstance is none (axios.create() is used);
an omitted apiURL is none (the default URL is used).  Whichever instance
is used, its baseURL default is then overwritten with apiURL. -/
def Energomonitor.construct (token : JSVal) (axiosInstance : Option AxiosInstance)
    (apiURL : Option String) : Energomonitor :=
  let ax : AxiosInstance :=
    match axiosInstance with
    | some a => a
    | none => AxiosInstance.create
  { token := token
    authorizedRequestHeaders := buildAuthorizedRequestHeaders token
    ax := { ax with baseURL := JSVal.str (apiURL.getD defaultApiURL) } }

/-- Model of an axios GET call on the session's instance. -/
def axiosGet (ax : AxiosInstance) (url : String) (headers : List (String × String))
    (params : List (String × JSVal)) (serializer : QuerySerializer) : Request :=
  { method := HttpMethod.GET
    baseURL := ax.baseURL
    url := url
    headers := headers
    params := params
    serializer := serializer
    data := none
    auth := none }

/-- Model of an axios PATCH call on the session's instance. -/
def axiosPatch (ax : AxiosInstance) (url : String) (data : JSVal)
    (headers : List (String × String)) : Request :=
  { method := HttpMethod.PATCH
    baseURL := ax.baseURL
    url := url
    headers := headers
    params := []
    serializer := QuerySerializer.axiosDefault
    data := some data
    auth := none }

/-- Model of an axios POST call on the session's instance. -/
def axiosPost (ax : AxiosInstance) (url : String) (data : JSVal)
    (auth : String × String) : Request :=
  { method := HttpMethod.POST
    baseURL := ax.baseURL
    url := url
    headers := []
    params := []
    serializer := QuerySerializer.axiosDefault
    data := some data
    auth := some auth }

/-- The body object authorize builds: keys note, resources and
valid_minutes are assigned only when the corresponding argument is not
undefined (Energomonitor.js lines 75-85). -/
def Energomonitor.authorizeData (note : Option String) (resources : Option JSVal)
    (validMinutes : Option Int) : List (String × JSVal) :=
  let data : List (String × JSVal) := []
  let data : List (String × JSVal) :=
    match note with
    | some n => data ++ [("note", JSVal.str n)]
    | none => data
  let data : List (String × JSVal) :=
    match resources with
    | some r => data ++ [("resources", r)]
    | none => data
  match validMinutes with
  | some v => data ++ [("valid_minutes", JSVal.num v)]
  | none => data

/-- The request authorize issues: a POST of the body to /authorizations
with HTTP Basic auth credentials (Energomonitor.js lines 72-94). -/
def Energomonitor.authorizeRequest (em : Energomonitor) (username password : String)
    (note : Option String) (resources : Option JSVal) (validMinutes : Option Int) :
    Request :=
  axiosPost em.ax ENDPOINT_URLS.auth
    (JSVal.obj (Energomonitor.authorizeData note resources validMinutes))
    (username, password)

/-- Outcome of the transport call made by authorize: the promise rejects,
or it resolves and the then-callback receives response.data. -/
inductive AuthOutcome where
  | failure : AuthOutcome
  | success : JSVal → AuthOutcome
deriving Repr

/-- State transition of authorize (Energomonitor.js lines 94-100): on a
rejected transport call the then-callback never runs and the session is
untouched; on success, token is read off response.data (a throwing
property access also leaves the session untouched, the promise rejecting
instead) and both token and the derived headers are overwritten. -/
def Energomonitor.authorizeApply (em : Energomonitor) (outcome : AuthOutcome) :
    Energomonitor :=
  match outcome with
  | AuthOutcome.failure => em
  | AuthOutcome.success respData =>
      match jsGetProp respData "token" with
      | none => em
      | some token =>
          { em with
            token := token
            authorizedRequestHeaders := buildAuthorizedRequestHeaders token }

/-- Embedding of Energomonitor.getUser. -/
def Energomonitor.getUser (em : Energomonitor) (userId : String) :
    Except String Request :=
  let url := ENDPOINT_URLS.user userId
  authorizedApiRequest em.token (fun _ =>
    Except.ok (axiosGet em.ax url em.authorizedRequestHeaders []
      QuerySerializer.axiosDefault))

/-- Embedding of Energomonitor.getFeeds. -/
def Energomonitor.getFeeds (em : Energomonitor) (userId : String) :
    Except String Request :=
  let url := ENDPOINT_URLS.feeds userId
  authorizedApiRequest em.token (fun _ =>
    Except.ok (axiosGet em.ax url em.authorizedRequestHeaders []
      QuerySerializer.axiosDefault))

/-- Embedding of Energomonitor.getFeed. -/
def Energomonitor.getFeed (em : Energomonitor) (feedId : String) :
    Except String Request :=
  let url := ENDPOINT_URLS.feed feedId
  authorizedApiRequest em.token (fun _ =>
    Except.ok (axiosGet em.ax url em.authorizedRequestHeaders []
      QuerySerializer.axiosDefault))

/-- The params object getStreams builds (Energomonitor.js lines 179-192):
type, channel, data_time_from, data_time_to, each assigned only when the
argument is not undefined; dates run through dateToTimestamp. -/
def Energomonitor.getStreamsParams (types channels : JSVal)
    (dataTimeFrom dataTimeTo : Option Int) : List (String × JSVal) :=
  let params : List (String × JSVal) := []
  let params : List (String × JSVal) :=
    match types with
    | JSVal.undef => params
    | t => params ++ [("type", t)]
  let params : List (String × JSVal) :=
    match channels with
    | JSVal.undef => params
    | c => params ++ [("channel", c)]
  let params : List (String × JSVal) :=
    match dataTimeFrom with
    | some d => params ++ [("data_time_from", JSVal.num (dateToTimestamp d))]
    | none => params
  match dataTimeTo with
  | some d => params ++ [("data_time_to", JSVal.num (dateToTimestamp d))]
  | none => params

/-- Embedding of Energomonitor.getStreams: the one method that overrides
the params serializer with qs.stringify (indices false). -/
def Energomonitor.getStreams (em : Energomonitor) (feedId : String)
    (types channels : JSVal) (dataTimeFrom dataTimeTo : Option Int) :
    Except String Request :=
  let url := ENDPOINT_URLS.streams feedId
  let params := Energomonitor.getStreamsParams types channels dataTimeFrom dataTimeTo
  authorizedApiRequest em.token (fun _ =>
    Except.ok (axiosGet em.ax url em.authorizedRequestHeaders params
      QuerySerializer.qsNoIndices))

/-- Embedding of Energomonitor.getStream. -/
def Energomonitor.getStream (em : Energomonitor) (feedId streamId : String) :
    Except String Request :=
  let url := ENDPOINT_URLS.stream feedId streamId
  authorizedApiRequest em.token (fun _ =>
    Except.ok (axiosGet em.ax url em.authorizedRequestHeaders []
      QuerySerializer.axiosDefault))

/-- The params object getStreamData builds (Energomonitor.js lines
256-266): limit first, then time_from and time_to, each assigned only
when the argument is not undefined; dates run through dateToTimestamp. -/
def Energomonitor.getStreamDataParams (timeFrom timeTo lim : Option Int) :
    List (String × JSVal) :=
  let params : List (String × JSVal) := []
  let params : List (String × JSVal) :=
    match lim with
    | some l => params ++ [("limit", JSVal.num l)]
    | none => params
  let params : List (String × JSVal) :=
    match timeFrom with
    | some d => params ++ [("time_from", JSVal.num (dateToTimestamp d))]
    | none => params
  match timeTo with
  | some d => params ++ [("time_to", JSVal.num (dateToTimestamp d))]
  | none => params

/-- Embedding of Energomonitor.getStreamData. -/
def Energomonitor.getStreamData (em : Energomonitor) (feedId streamId : String)
    (timeFrom timeTo lim : Option Int) : Except String Request :=
  let url := ENDPOINT_URLS.streamData feedId streamId
  let params := Energomonitor.getStreamDataParams timeFrom timeTo lim
  authorizedApiRequest em.token (fun _ =>
    Except.ok (axiosGet em.ax url em.authorizedRequestHeaders params
      QuerySerializer.axiosDefault))

/-- Embedding of Energomonitor.getRelatedStreams. -/
def Energomonitor.getRelatedStreams (em : Energomonitor) (feedId : String) :
    Except String Request :=
  let url := ENDPOINT_URLS.relatedStreams feedId
  authorizedApiRequest em.token (fun _ =>
    Except.ok (axiosGet em.ax url em.authorizedRequestHeaders []
      QuerySerializer.axiosDefault))

/-- The params object getNotifications builds (Energomonitor.js lines
311-315): created_at_from is assigned only when the argument is not
undefined, and holds the date's toISOString value. -/
def Energomonitor.getNotificationsParams (createdAtFrom : Option Int) :
    List (String × JSVal) :=
  match createdAtFrom with
  | some d => [("created_at_from", JSVal.str (jsDateToISOString d))]
  | none => []

/-- Embedding of Energomonitor.getNotifications. -/
def Energomonitor.getNotifications (em : Energomonitor) (userId : String)
    (createdAtFrom : Option Int) : Except String Request :=
  let url := ENDPOINT_URLS.notifications userId
  let params := Energomonitor.getNotificationsParams createdAtFrom
  authorizedApiRequest em.token (fun _ =>
    Except.ok (axiosGet em.ax url em.authorizedRequestHeaders params
      QuerySerializer.axiosDefault))

/-- Embedding of Energomonitor.getNotification. -/
def Energomonitor.getNotification (em : Energomonitor)
    (userId notificationId : String) : Except String Request :=
  let url := ENDPOINT_URLS.notification userId notificationId
  authorizedApiRequest em.token (fun _ =>
    Except.ok (axiosGet em.ax url em.authorizedRequestHeaders []
      QuerySerializer.axiosDefault))

/-- Embedding of Energomonitor.updateNotifications: a PATCH of the data
argument passed through verbatim. -/
def Energomonitor.updateNotifications (em : Energomonitor) (userId : String)
    (data : JSVal) : Except String Request :=
  let url := ENDPOINT_URLS.notifications userId
  authorizedApiRequest em.token (fun _ =>
    Except.ok (axiosPatch em.ax url data em.authorizedRequestHeaders))

/-- Embedding of Energomonitor.updateNotification. -/
def Energomonitor.updateNotification (em : Energomonitor)
    (userId notificationId : String) (data : JSVal) : Except String Request :=
  let url := ENDPOINT_URLS.notification userId notificationId
  authorizedApiRequest em.token (fun _ =>
    Except.ok (axiosPatch em.ax url data em.authorizedRequestHeaders))

/-- Embedding of Energomonitor.getNotificationCount. -/
def Energomonitor.getNotificationCount (em : Energomonitor) (userId : String) :
    Except String Request :=
  let url := ENDPOINT_URLS.notificationCount userId
  authorizedApiRequest em.token (fun _ =>
    Except.ok (axiosGet em.ax url em.authorizedRequestHeaders []
      QuerySerializer.axiosDefault))

/-- An invocation of one of the twelve gated operations (every public
method of the class except authorize), with its arguments. -/
inductive OpCall where
  | getUser : String → OpCall
  | getFeeds : String → OpCall
  | getFeed : String → OpCall
  | getStreams : String → JSVal → JSVal → Option Int → Option Int → OpCall
  | getStream : String → String → OpCall
  | getStreamData : String → String → Option Int → Option Int → Option Int → OpCall
  | getRelatedStreams : String → OpCall
  | getNotifications : String → Option Int → OpCall
  | getNotification : String → String → OpCall
  | updateNotifications : String → JSVal → OpCall
  | updateNotification : String → String → JSVal → OpCall
  | getNotificationCount : String → OpCall
deriving Repr

/-- Dispatch an OpCall to the corresponding method. -/
def Energomonitor.run (em : Energomonitor) : OpCall → Except String Request
  | OpCall.getUser userId => em.getUser userId
  | OpCall.getFeeds userId => em.getFeeds userId
  | OpCall.getFeed feedId => em.getFeed feedId
  | OpCall.getStreams feedId types channels f t => em.getStreams feedId types channels f t
  | OpCall.getStream feedId streamId => em.getStream feedId streamId
  | OpCall.getStreamData feedId streamId f t l => em.getStreamData feedId streamId f t l
  | OpCall.getRelatedStreams feedId => em.getRelatedStreams feedId
  | OpCall.getNotifications userId c => em.getNotifications userId c
  | OpCall.getNotification userId notificationId => em.getNotification userId notificationId
  | OpCall.updateNotifications userId d => em.updateNotifications userId d
  | OpCall.updateNotification userId notificationId d =>
      em.updateNotification userId notificationId d
  | OpCall.getNotificationCount userId => em.getNotificationCount userId

/-- An action on a session: one of the gated operations (which never
assign to the session's fields) or an authorize call together with the
outcome of its transport call. -/
inductive SessionAction where
  | call : OpCall → SessionAction
  | authorize : String → String → Option String → Option JSVal → Option Int →
      AuthOutcome → SessionAction
deriving Repr

/-- The session state after an action. -/
def stepSession (em : Energomonitor) : SessionAction → Energomonitor
  | SessionAction.call _ => em
  | SessionAction.authorize _ _ _ _ _ outcome => em.authorizeApply outcome

/-- The session state after a sequence of actions. -/
def runActions (em : Energomonitor) : List SessionAction → Energomonitor
  | [] => em
  | a :: rest => runActions (stepSession em a) rest

/-- Property of an action: if it is an authorize call whose transport call
succeeded, the response body's token property is a defined value (vacuously
true for gated calls, failed authorize calls, and bodies on which the
property access throws). -/
def SessionAction.tokenDefined : SessionAction → Prop
  | SessionAction.authorize _ _ _ _ _ (AuthOutcome.success respData) =>
      jsGetProp respData "token" ≠ some JSVal.undef
  | _ => True

/-!
Theorems.  Helper lemmas first, then one theorem per claim (with witness
or counterexample theorems where required).
-/

/-- The gate runs the thunk untouched whenever the token is any value other
than undefined. -/
theorem authorizedApiRequest_of_ne {α : Type} (token : JSVal)
    (f : Unit → Except String α) (h : token ≠ JSVal.undef) :
    authorizedApiRequest token f = f () := by
  cases token <;> first | exact absurd rfl h | rfl

/-- Closed form of dateToTimestamp: Math.round of ms/1000 is the floor of
(ms + 500)/1000. -/
theorem dateToTimestamp_eq_fdiv (ms : Int) :
    dateToTimestamp ms = Int.fdiv (ms + 500) 1000 := by
  unfold dateToTimestamp jsMathRound
  have h1 : ((ms : Rat)) / 1000 + 1 / 2 = ((ms + 500 : Int) : Rat) / ((1000 : Nat) : Rat) := by
    push_cast
    ring
  rw [h1, Rat.floor_intCast_div_natCast, Int.fdiv_eq_ediv _ (by norm_num)]
  norm_num

/-- Claim C1: every operation other than authorize, invoked on a session
whose credential has not been set, yields a rejected result carrying
exactly the documented literal string, and no transport call is issued (an
Except.error result is produced before any request descriptor exists). -/
theorem run_rejects_without_token (em : Energomonitor) (c : OpCall)
    (h : em.token = JSVal.undef) :
    em.run c = Except.error "Cannot call this method without setting the authorization token (in the constructor or using the authorize method)." := by
  obtain ⟨tok, hdrs, ax⟩ := em
  subst h
  cases c <;> rfl

/-- Witness for claim C1 at a concrete unauthorized session. -/
theorem run_rejects_without_token_witness :
    (Energomonitor.construct JSVal.undef none none).token = JSVal.undef ∧
    (Energomonitor.construct JSVal.undef none none).run (OpCall.getFeeds "usfgw") =
      Except.error "Cannot call this method without setting the authorization token (in the constructor or using the authorize method)." :=
  ⟨rfl, run_rejects_without_token _ _ rfl⟩

/-- Claim C2 as stated is false: the conversion is JavaScript Math.round,
not floor.  At the date 500 milliseconds after the epoch the code produces
1 while exact Unix-second truncation produces 0. -/
theorem dateToTimestamp_ne_truncation_at_500 :
    dateToTimestamp 500 = 1 ∧ dateToUnixSecondsSpec 500 = 0 ∧
    dateToTimestamp 500 ≠ dateToUnixSecondsSpec 500 := by
  have h := dateToTimestamp_eq_fdiv 500
  refine ⟨?_, by decide, ?_⟩
  · rw [h]
    decide
  · rw [h]
    decide

/-- Claim C2 amended: the date conversion used for dataTimeFrom/dataTimeTo
(getStreams) and timeFrom/timeTo (getStreamData) is Math.round of
milliseconds/1000, i.e. the floor of (ms + 500)/1000 — half-up rounding
rather than truncation; the concrete example is unaffected: getStreamData
with timeFrom at 2015-10-12T05:10:00Z (1444626600000 ms) issues its
request with query time_from=1444626600. -/
theorem dateToTimestamp_half_up (ms : Int) (em : Energomonitor)
    (feedId streamId : String) (h : em.token ≠ JSVal.undef) :
    dateToTimestamp ms = Int.fdiv (ms + 500) 1000 ∧
    em.getStreamData feedId streamId (some 1444626600000) none none =
      Except.ok (axiosGet em.ax (ENDPOINT_URLS.streamData feedId streamId)
        em.authorizedRequestHeaders [("time_from", JSVal.num 1444626600)]
        QuerySerializer.axiosDefault) := by
  refine ⟨dateToTimestamp_eq_fdiv ms, ?_⟩
  have hts : dateToTimestamp 1444626600000 = 1444626600 := by
    rw [dateToTimestamp_eq_fdiv]
    decide
  unfold Energomonitor.getStreamData
  rw [authorizedApiRequest_of_ne _ _ h]
  simp [Energomonitor.getStreamDataParams, hts]

/-- Witness for the amended claim C2 at concrete inputs. -/
theorem dateToTimestamp_half_up_witness :
    dateToTimestamp 0 = Int.fdiv (0 + 500) 1000 ∧
    (Energomonitor.construct (JSVal.str "t") none none).getStreamData "f1" "s1"
        (some 1444626600000) none none =
      Except.ok (axiosGet (Energomonitor.construct (JSVal.str "t") none none).ax
        (ENDPOINT_URLS.streamData "f1" "s1")
        (Energomonitor.construct (JSVal.str "t") none none).authorizedRequestHeaders
        [("time_from", JSVal.num 1444626600)]
        QuerySerializer.axiosDefault) :=
  dateToTimestamp_half_up 0 (Energomonitor.construct (JSVal.str "t") none none)
    "f1" "s1" (fun hh => JSVal.noConfusion hh)

/-- Claim C3 as stated is false: a session holding a credential, after a
successful authorize whose response body lacks a token field, ends with an
absent credential (the gate would reject again). -/
theorem authorized_not_terminal_counterexample :
    (Energomonitor.construct (JSVal.str "t") none none).token ≠ JSVal.undef ∧
    (stepSession (Energomonitor.construct (JSVal.str "t") none none)
        (SessionAction.authorize "u" "p" none none none
          (AuthOutcome.success (JSVal.obj [])))).token = JSVal.undef :=
  ⟨fun hh => JSVal.noConfusion hh, rfl⟩

/-- Claim C3 amended: once the credential is present it stays present under
every gated operation, every failed authorize, and every successful
authorize whose response body carries a defined token property; only a
successful authorize whose body maps token to undefined (for example an
empty object) returns the session to the unauthorized state. -/
theorem token_persists (acts : List SessionAction) :
    ∀ em : Energomonitor, em.token ≠ JSVal.undef →
      (∀ a ∈ acts, SessionAction.tokenDefined a) →
      (runActions em acts).token ≠ JSVal.undef := by
  induction acts with
  | nil => exact fun _ hem _ => hem
  | cons a rest ih =>
      intro em hem hacts
      have ha : SessionAction.tokenDefined a := hacts a (List.mem_cons_self a rest)
      have hrest : ∀ b ∈ rest, SessionAction.tokenDefined b :=
        fun b hb => hacts b (List.mem_cons_of_mem a hb)
      refine ih (stepSession em a) ?_ hrest
      cases a with
      | call c => exact hem
      | authorize u p n r v outcome =>
          cases outcome with
          | failure => exact hem
          | success respData =>
              unfold stepSession Energomonitor.authorizeApply
              cases hjs : jsGetProp respData "token" with
              | none =>
                  simp only [hjs]
                  exact hem
              | some tokenVal =>
                  simp only [hjs]
                  intro he
                  apply ha
                  rw [hjs, he]

/-- Witness for the amended claim C3: a concrete authorized session stays
authorized across a gated call, a successful re-authorize carrying a fresh
token, and another gated call. -/
theorem token_persists_witness :
    (Energomonitor.construct (JSVal.str "t") none none).token ≠ JSVal.undef ∧
    (∀ a ∈ [SessionAction.call (OpCall.getUser "u1"),
        SessionAction.authorize "u" "p" none none none
          (AuthOutcome.success (JSVal.obj [("token", JSVal.str "t2")])),
        SessionAction.call (OpCall.getFeeds "u1")], SessionAction.tokenDefined a) ∧
    (runActions (Energomonitor.construct (JSVal.str "t") none none)
        [SessionAction.call (OpCall.getUser "u1"),
         SessionAction.authorize "u" "p" none none none
           (AuthOutcome.success (JSVal.obj [("token", JSVal.str "t2")])),
         SessionAction.call (OpCall.getFeeds "u1")]).token ≠ JSVal.undef := by
  have h1 : (Energomonitor.construct (JSVal.str "t") none none).token ≠ JSVal.undef :=
    fun hh => JSVal.noConfusion hh
  have h2 : ∀ a ∈ [SessionAction.call (OpCall.getUser "u1"),
      SessionAction.authorize "u" "p" none none none
        (AuthOutcome.success (JSVal.obj [("token", JSVal.str "t2")])),
      SessionAction.call (OpCall.getFeeds "u1")], SessionAction.tokenDefined a := by
    intro a haists
    simp only [List.mem_cons, List.not_mem_nil, or_false] at haists
    rcases haists with rfl | rfl | rfl <;>
      simp [SessionAction.tokenDefined, jsGetProp]
  exact ⟨h1, h2, token_persists _ _ h1 h2⟩

/-- Claim C4: the credential and its derived header set are mutated only by
authorize, and only when its transport call succeeds: stepping the session
with any gated operation is the identity, and stepping it with an
authorize whose transport call failed is the identity (atomicity on
error). -/
theorem credential_mutation_only_successful_authorize :
    (∀ (em : Energomonitor) (c : OpCall),
      stepSession em (SessionAction.call c) = em) ∧
    (∀ (em : Energomonitor) (u p : String) (n : Option String) (r : Option JSVal)
        (v : Option Int),
      stepSession em (SessionAction.authorize u p n r v AuthOutcome.failure) = em) :=
  ⟨fun _ _ => rfl, fun _ _ _ _ _ _ => rfl⟩

/-- Claim C5: authorize issues a POST to /authorizations carrying HTTP
Basic auth with the given username and password; its body object contains
the key note iff note was provided, resources iff resources was provided,
valid_minutes iff validMinutes was provided, and is exactly the empty
object when none was; and for every other operation with optional inputs
(getStreams, getStreamData, getNotifications) an omitted input leaves no
key at all in the params object. -/
theorem authorize_request_shape (em : Energomonitor) (u p : String)
    (note : Option String) (resources : Option JSVal) (validMinutes : Option Int)
    (types channels : JSVal) (dtf dtt tf tt lim caf : Option Int) :
    (em.authorizeRequest u p note resources validMinutes).method = HttpMethod.POST ∧
    (em.authorizeRequest u p note resources validMinutes).url = "/authorizations" ∧
    (em.authorizeRequest u p note resources validMinutes).auth = some (u, p) ∧
    (em.authorizeRequest u p note resources validMinutes).data =
      some (JSVal.obj (Energomonitor.authorizeData note resources validMinutes)) ∧
    (("note" ∈ (Energomonitor.authorizeData note resources validMinutes).map Prod.fst) ↔
      note.isSome) ∧
    (("resources" ∈ (Energomonitor.authorizeData note resources validMinutes).map Prod.fst) ↔
      resources.isSome) ∧
    (("valid_minutes" ∈ (Energomonitor.authorizeData note resources validMinutes).map Prod.fst) ↔
      validMinutes.isSome) ∧
    Energomonitor.authorizeData none none none = [] ∧
    (("type" ∈ (Energomonitor.getStreamsParams types channels dtf dtt).map Prod.fst) ↔
      types ≠ JSVal.undef) ∧
    (("channel" ∈ (Energomonitor.getStreamsParams types channels dtf dtt).map Prod.fst) ↔
      channels ≠ JSVal.undef) ∧
    (("data_time_from" ∈ (Energomonitor.getStreamsParams types channels dtf dtt).map Prod.fst) ↔
      dtf.isSome) ∧
    (("data_time_to" ∈ (Energomonitor.getStreamsParams types channels dtf dtt).map Prod.fst) ↔
      dtt.isSome) ∧
    (("limit" ∈ (Energomonitor.getStreamDataParams tf tt lim).map Prod.fst) ↔ lim.isSome) ∧
    (("time_from" ∈ (Energomonitor.getStreamDataParams tf tt lim).map Prod.fst) ↔ tf.isSome) ∧
    (("time_to" ∈ (Energomonitor.getStreamDataParams tf tt lim).map Prod.fst) ↔ tt.isSome) ∧
    (("created_at_from" ∈ (Energomonitor.getNotificationsParams caf).map Prod.fst) ↔
      caf.isSome) := by
  refine ⟨rfl, rfl, rfl, rfl, ?_, ?_, ?_, rfl, ?_, ?_, ?_, ?_, ?_, ?_, ?_, ?_⟩
  · cases note <;> cases resources <;> cases validMinutes <;>
      simp [Energomonitor.authorizeData]
  · cases note <;> cases resources <;> cases validMinutes <;>
      simp [Energomonitor.authorizeData]
  · cases note <;> cases resources <;> cases validMinutes <;>
      simp [Energomonitor.authorizeData]
  · cases types <;> cases channels <;> cases dtf <;> cases dtt <;>
      simp [Energomonitor.getStreamsParams]
  · cases types <;> cases channels <;> cases dtf <;> cases dtt <;>
      simp [Energomonitor.getStreamsParams]
  · cases types <;> cases channels <;> cases dtf <;> cases dtt <;>
      simp [Energomonitor.getStreamsParams]
  · cases types <;> cases channels <;> cases dtf <;> cases dtt <;>
      simp [Energomonitor.getStreamsParams]
  · cases tf <;> cases tt <;> cases lim <;> simp [Energomonitor.getStreamDataParams]
  · cases tf <;> cases tt <;> cases lim <;> simp [Energomonitor.getStreamDataParams]
  · cases tf <;> cases tt <;> cases lim <;> simp [Energomonitor.getStreamDataParams]
  · cases caf <;> simp [Energomonitor.getNotificationsParams]

/-- Claim C6: getStreams installs qs.stringify with indices disabled in
place of the axios default serializer, so a list passed as types or
channels serializes as its key repeated once per element (and not in the
axios default bracketed form). -/
theorem getStreams_repeated_key_serialization (em : Energomonitor) (feedId : String)
    (ts cs : List JSVal) (h : em.token ≠ JSVal.undef) :
    ∃ req : Request,
      em.getStreams feedId (JSVal.arr ts) (JSVal.arr cs) none none = Except.ok req ∧
      req.serializer = QuerySerializer.qsNoIndices ∧
      req.serializer ≠ QuerySerializer.axiosDefault ∧
      serializeParams req.serializer req.params =
        String.intercalate "&"
          (ts.map (fun v => "type=" ++ jsToString v) ++
            cs.map (fun v => "channel=" ++ jsToString v)) := by
  unfold Energomonitor.getStreams
  rw [authorizedApiRequest_of_ne _ _ h]
  refine ⟨_, rfl, rfl, fun hq => QuerySerializer.noConfusion hq, ?_⟩
  simp [serializeParams, axiosGet, qsStringifyNoIndices,
    Energomonitor.getStreamsParams, collectFragments]

/-- Witness for claim C6 at a concrete session and concrete lists. -/
theorem getStreams_repeated_key_serialization_witness :
    ∃ req : Request,
      (Energomonitor.construct (JSVal.str "t") none none).getStreams "f1"
          (JSVal.arr [JSVal.str "raw", JSVal.str "processed"])
          (JSVal.arr [JSVal.num 1, JSVal.num 2]) none none = Except.ok req ∧
      req.serializer = QuerySerializer.qsNoIndices ∧
      req.serializer ≠ QuerySerializer.axiosDefault ∧
      serializeParams req.serializer req.params =
        String.intercalate "&"
          ([JSVal.str "raw", JSVal.str "processed"].map (fun v => "type=" ++ jsToString v) ++
            [JSVal.num 1, JSVal.num 2].map (fun v => "channel=" ++ jsToString v)) :=
  getStreams_repeated_key_serialization
    (Energomonitor.construct (JSVal.str "t") none none) "f1"
    [JSVal.str "raw", JSVal.str "processed"] [JSVal.num 1, JSVal.num 2]
    (fun hh => JSVal.noConfusion hh)

/-- Claim C7: a Date passed as createdAtFrom reaches the created_at_from
query parameter as the full ISO-8601 string (millisecond precision, Z
suffix) produced by toISOString, not as a Unix-second timestamp; at
2017-04-22T16:30:00Z the parameter is 2017-04-22T16:30:00.000Z. -/
theorem getNotifications_iso8601 (em : Energomonitor) (userId : String) (d : Int)
    (h : em.token ≠ JSVal.undef) :
    ∃ req : Request,
      em.getNotifications userId (some d) = Except.ok req ∧
      req.params = [("created_at_from", JSVal.str (jsDateToISOString d))] ∧
      jsDateToISOString 1492878600000 = "2017-04-22T16:30:00.000Z" ∧
      jsDateToISOString 1492878600000 ≠ toString (dateToTimestamp 1492878600000) := by
  unfold Energomonitor.getNotifications
  rw [authorizedApiRequest_of_ne _ _ h]
  refine ⟨_, rfl, rfl, by decide, ?_⟩
  rw [dateToTimestamp_eq_fdiv]
  decide

/-- Witness for claim C7 at a concrete session and the concrete date. -/
theorem getNotifications_iso8601_witness :
    ∃ req : Request,
      (Energomonitor.construct (JSVal.str "t") none none).getNotifications "u1"
          (some 1492878600000) = Except.ok req ∧
      req.params = [("created_at_from", JSVal.str (jsDateToISOString 1492878600000))] ∧
      jsDateToISOString 1492878600000 = "2017-04-22T16:30:00.000Z" ∧
      jsDateToISOString 1492878600000 ≠ toString (dateToTimestamp 1492878600000) :=
  getNotifications_iso8601 (Energomonitor.construct (JSVal.str "t") none none) "u1"
    1492878600000 (fun hh => JSVal.noConfusion hh)

/-- Every gated operation that issues a request attaches the session's
current derived header set to it. -/
theorem run_ok_headers (em : Energomonitor) (c : OpCall) (req : Request)
    (h : em.run c = Except.ok req) : req.headers = em.authorizedRequestHeaders := by
  obtain ⟨tok, hdrs, ax⟩ := em
  cases tok <;> cases c <;>
    first
      | exact Except.noConfusion h
      | exact (Except.ok.inj h) ▸ rfl

/-- Every gated operation on a session whose token is any value other than
undefined issues a request, and that request carries the session's derived
header set. -/
theorem run_ok_of_ne (em : Energomonitor) (c : OpCall) (h : em.token ≠ JSVal.undef) :
    ∃ req : Request, em.run c = Except.ok req ∧
      req.headers = em.authorizedRequestHeaders := by
  obtain ⟨tok, hdrs, ax⟩ := em
  cases tok <;> try exact absurd rfl h
  all_goals cases c <;> exact ⟨_, rfl, rfl⟩

/-- Every gated operation on a session whose token is undefined rejects
with the fixed gate message. -/
theorem run_undef (em : Energomonitor) (c : OpCall) (h : em.token = JSVal.undef) :
    em.run c = Except.error missingTokenMessage := by
  obtain ⟨tok, hdrs, ax⟩ := em
  subst h
  cases c <;> rfl

/-- Claim C8: after a successful authorize whose response body carries the
token t, the session's derived header set is exactly Content-Type:
application/json together with Authorization: Bearer t, and that header
set is the one attached to every subsequent request a gated operation
issues. -/
theorem authorize_installs_bearer_headers (em : Energomonitor) (u p : String)
    (note : Option String) (resources : Option JSVal) (validMinutes : Option Int)
    (respData : JSVal) (t : String)
    (htok : jsGetProp respData "token" = some (JSVal.str t)) :
    (stepSession em (SessionAction.authorize u p note resources validMinutes
        (AuthOutcome.success respData))).authorizedRequestHeaders =
      [("Content-Type", "application/json"), ("Authorization", "Bearer " ++ t)] ∧
    ∀ (c : OpCall) (req : Request),
      (stepSession em (SessionAction.authorize u p note resources validMinutes
          (AuthOutcome.success respData))).run c = Except.ok req →
      req.headers =
        [("Content-Type", "application/json"), ("Authorization", "Bearer " ++ t)] := by
  have hh : (stepSession em (SessionAction.authorize u p note resources validMinutes
      (AuthOutcome.success respData))).authorizedRequestHeaders =
      [("Content-Type", "application/json"), ("Authorization", "Bearer " ++ t)] := by
    unfold stepSession Energomonitor.authorizeApply
    simp only [htok]
    rfl
  exact ⟨hh, fun c req hrun => (run_ok_headers _ c req hrun).trans hh⟩

/-- Witness for claim C8: a concrete successful authorize response carrying
token tok123 installs exactly the bearer header set, and a subsequent
getUser call attaches it. -/
theorem authorize_installs_bearer_headers_witness :
    (stepSession (Energomonitor.construct JSVal.undef none none)
        (SessionAction.authorize "user" "pw" none none none
          (AuthOutcome.success
            (JSVal.obj [("token", JSVal.str "tok123")])))).authorizedRequestHeaders =
      [("Content-Type", "application/json"), ("Authorization", "Bearer tok123")] ∧
    ∀ (c : OpCall) (req : Request),
      (stepSession (Energomonitor.construct JSVal.undef none none)
          (SessionAction.authorize "user" "pw" none none none
            (AuthOutcome.success
              (JSVal.obj [("token", JSVal.str "tok123")])))).run c = Except.ok req →
      req.headers =
        [("Content-Type", "application/json"), ("Authorization", "Bearer tok123")] :=
  authorize_installs_bearer_headers (Energomonitor.construct JSVal.undef none none)
    "user" "pw" none none none (JSVal.obj [("token", JSVal.str "tok123")]) "tok123" rfl

/-- Claim C9: construction always sets the transport's base URL to the
apiURL argument (its default when omitted); a caller-supplied transport's
prior base URL is overwritten, never kept. -/
theorem construct_overwrites_baseURL (token : JSVal) (a : AxiosInstance)
    (apiURL : String) :
    (Energomonitor.construct token (some a) (some apiURL)).ax.baseURL =
      JSVal.str apiURL ∧
    (Energomonitor.construct token (some a) none).ax.baseURL =
      JSVal.str "https://api.energomonitor.com/v1" ∧
    (Energomonitor.construct token none (some apiURL)).ax.baseURL =
      JSVal.str apiURL ∧
    (Energomonitor.construct token none none).ax.baseURL =
      JSVal.str "https://api.energomonitor.com/v1" :=
  ⟨rfl, rfl, rfl, rfl⟩

/-- Claim C10: the gate rejects exactly when the stored token is strictly
the undefined value; a session constructed with any other token value —
null or the empty string included — is treated as authorized, every
operation issuing its request with the header Authorization: Bearer
followed by the stringified token (Bearer null, Bearer ). -/
theorem gate_rejects_iff_undefined (c : OpCall) (tok : JSVal)
    (a : Option AxiosInstance) (apiURL : Option String) :
    ((Energomonitor.construct tok a apiURL).run c =
        Except.error missingTokenMessage ↔ tok = JSVal.undef) ∧
    (tok ≠ JSVal.undef → ∃ req : Request,
      (Energomonitor.construct tok a apiURL).run c = Except.ok req ∧
      ("Authorization", "Bearer " ++ jsToString tok) ∈ req.headers) ∧
    buildAuthorizedRequestHeaders JSVal.null =
      [("Content-Type", "application/json"), ("Authorization", "Bearer null")] ∧
    buildAuthorizedRequestHeaders (JSVal.str "") =
      [("Content-Type", "application/json"), ("Authorization", "Bearer ")] := by
  refine ⟨⟨fun herr => ?_, fun he => ?_⟩, fun hne => ?_, rfl, rfl⟩
  · by_contra hne
    obtain ⟨req, hok, _⟩ := run_ok_of_ne (Energomonitor.construct tok a apiURL) c hne
    rw [herr] at hok
    exact Except.noConfusion hok
  · subst he
    exact run_undef _ c rfl
  · obtain ⟨req, hok, hhd⟩ := run_ok_of_ne (Energomonitor.construct tok a apiURL) c hne
    refine ⟨req, hok, ?_⟩
    rw [hhd]
    simp [Energomonitor.construct, buildAuthorizedRequestHeaders]

/-- Witness for claim C10: a session constructed with the null token is
treated as authorized and getUser issues a request whose headers include
Authorization: Bearer null. -/
theorem gate_rejects_iff_undefined_witness :
    JSVal.null ≠ JSVal.undef ∧
    (∃ req : Request,
      (Energomonitor.construct JSVal.null none none).run (OpCall.getUser "u1") =
        Except.ok req ∧
      ("Authorization", "Bearer " ++ jsToString JSVal.null) ∈ req.headers) :=
  ⟨fun hh => JSVal.noConfusion hh,
    (gate_rejects_iff_undefined (OpCall.getUser "u1") JSVal.null none none).2.1
      (fun hh => JSVal.noConfusion hh)⟩
